import Mathlib

/-!
# Translation page script (`script.js`)

A shallow embedding of the page script: the language/text swap helper
(`swapLanguages`), the translation request cycle (`translate`, `checkApiKey`,
`showLoading`) and the capture controller (`toggleVoiceRecognition`,
`startVoiceRecognition`, `stopVoiceRecognition`).

The module-level bindings of the script (the `elements` record, `recognition`,
`isRecording`) and the `deepseekApiKey` entry of `localStorage` are the fields of
`State`.  Every effect on the host (a dialog, a console line, the outbound `fetch`,
a call on the recognition object, a change of the translate button's `disabled`
attribute) is appended to `State.log` in program order.  What the host answers (the
reply to `prompt`, the outcome of `fetch`, the text of engine-raised errors) is a
parameter of the functions.

Scope of the embedding:
* one `translate` call is followed to settlement, with no other handler running between
  the `await` and its continuation;
* strings are sequences of code points; the code points `trim` strips are all in the
  basic plane, so `trim` agrees with the one on UTF-16 code units;
* a write to a selector's `value` is a field write (both selectors offer the same codes);
* calls on the recognition object are logged; what the host does with them afterwards
  (`onresult`, `onend`, `onerror` events) is a separate handler run.
-/

namespace Sensen

/-! ## ECMAScript values read from the provider's response -/

/-- Sign class of a number value. -/
inductive Sign where
  | neg
  | zero
  | pos
  deriving DecidableEq, Repr

/-- A number value produced by `JSON.parse` or by a `length` read, carried by the two
observations the script can make of it: its sign class (`0` and `-0` are `zero`) and its
`Number::toString` rendering.  `JSON.parse` never yields `NaN`. -/
structure JsNumber where
  sign : Sign
  text : String
  deriving DecidableEq, Repr

/-- The number value of a non-negative integer (a `length`). -/
def JsNumber.ofNat (n : Nat) : JsNumber :=
  { sign := if n = 0 then Sign.zero else Sign.pos, text := toString n }

/-- ECMAScript values reachable from a parsed JSON body by property reads: `undefined`
only arises from reading an absent property.  `obj` lists the own properties of a parsed
object (keys are unique after `JSON.parse`). -/
inductive JsValue where
  | undefined
  | null
  | bool (b : Bool)
  | num (n : JsNumber)
  | str (s : String)
  | arr (items : List JsValue)
  | obj (props : List (String × JsValue))

/-- The value thrown and caught inside `translate`; only its `message` is read. -/
structure JsError where
  message : String
  deriving DecidableEq, Repr

/-- Errors raised by the engine itself rather than by a `throw` of the script. -/
inductive EngineError where
  | readOfUndefined (key : String)
  | readOfNull (key : String)
  | writeOfNull (key : String)
  | toPrimitive
  deriving DecidableEq, Repr

/-- What the host environment contributes to one handler run. -/
structure Host where
  /-- Whether `'webkitSpeechRecognition' in window || 'SpeechRecognition' in window`. -/
  speechAvailable : Bool
  /-- What `prompt(...)` returns: `none` is `null` (dialog dismissed). -/
  promptReply : Option String
  /-- The `message` of the `TypeError` the engine raises. -/
  engineMessage : EngineError → String
  /-- Whether `StringToNumber s > 0` (floating-point parsing is left to the host). -/
  stringGtZero : String → Bool

/-- Build the engine's `TypeError`. -/
def Host.typeError (host : Host) (e : EngineError) : JsError :=
  { message := host.engineMessage e }

/-- ECMAScript `WhiteSpace` and `LineTerminator` code points, the ones `trim` strips. -/
def isJsWhiteSpace (c : Char) : Bool :=
  let n := c.toNat
  n == 0x09 || n == 0x0A || n == 0x0B || n == 0x0C || n == 0x0D || n == 0x20 ||
  n == 0xA0 || n == 0x1680 || (0x2000 ≤ n && n ≤ 0x200A) || n == 0x2028 ||
  n == 0x2029 || n == 0x202F || n == 0x205F || n == 0x3000 || n == 0xFEFF

/-- The embedding of `String.prototype.trim` on a list of characters. -/
def trimChars (cs : List Char) : List Char :=
  ((cs.dropWhile isJsWhiteSpace).reverse.dropWhile isJsWhiteSpace).reverse

/-- The embedding of `String.prototype.trim`. -/
def jsTrim (s : String) : String :=
  String.mk (trimChars s.data)

/-- Number of UTF-16 code units of a string (its `length`). -/
def utf16Length (s : String) : Nat :=
  (s.data.map fun c => if c.toNat < 0x10000 then 1 else 2).sum

/-- ECMAScript `ToBoolean`. -/
def truthy : JsValue → Bool
  | .undefined => false
  | .null => false
  | .bool b => b
  | .num n => n.sign != Sign.zero
  | .str s => s != ""
  | .arr _ => true
  | .obj _ => true

/-- The property names the script reads from the response. None of them is defined on
`Object.prototype`, `Array.prototype`, `String.prototype`, `Number.prototype` or
`Boolean.prototype`, except `length` and the index `0` on arrays and strings. -/
inductive Key where
  | choices
  | length
  | zero
  | message
  | content
  deriving DecidableEq, Repr

/-- The property name as written in the script. -/
def Key.name : Key → String
  | .choices => "choices"
  | .length => "length"
  | .zero => "0"
  | .message => "message"
  | .content => "content"

/-- Look up an own property of a parsed object. -/
def lookupProp (k : String) : List (String × JsValue) → JsValue
  | [] => .undefined
  | (k', v) :: rest => if k' = k then v else lookupProp k rest

/-- Whether a parsed object has an own property `k`. -/
def hasOwn (k : String) : List (String × JsValue) → Bool
  | [] => false
  | (k', _) :: rest => k' == k || hasOwn k rest

/-- The member read `v.key` / `v[0]`: a `TypeError` on `undefined` and `null`, the built-in
`length` and index `0` of arrays and strings, an own property of an object, and
`undefined` otherwise. Index `0` of a non-empty string is its first character (for a
character outside the basic plane the script would see its first code unit; either way a
string without further properties). -/
def getProp (host : Host) (v : JsValue) (key : Key) : Except JsError JsValue :=
  match v with
  | .undefined => .error (host.typeError (.readOfUndefined key.name))
  | .null => .error (host.typeError (.readOfNull key.name))
  | .bool _ => .ok .undefined
  | .num _ => .ok .undefined
  | .str s =>
    match key with
    | .length => .ok (.num (JsNumber.ofNat (utf16Length s)))
    | .zero => .ok (if s = "" then .undefined else .str (s.take 1))
    | _ => .ok .undefined
  | .arr items =>
    match key with
    | .length => .ok (.num (JsNumber.ofNat items.length))
    | .zero => .ok (items.head?.getD .undefined)
    | _ => .ok .undefined
  | .obj props => .ok (lookupProp key.name props)

mutual
/-- ECMAScript `ToString` on a value read from a parsed body. A parsed object inherits
`Object.prototype.toString` unless it has an own (never callable) `toString` property, in
which case `OrdinaryToPrimitive` finds no callable method returning a primitive. -/
def toStringJs (host : Host) : JsValue → Except JsError String
  | .undefined => .ok "undefined"
  | .null => .ok "null"
  | .bool b => .ok (if b then "true" else "false")
  | .num n => .ok n.text
  | .str s => .ok s
  | .arr items => joinJs host items
  | .obj props =>
    if hasOwn "toString" props then .error (host.typeError .toPrimitive)
    else .ok "[object Object]"
/-- The embedding of `Array.prototype.join` with the default separator: `undefined` and
`null` elements render as the empty string. -/
def joinJs (host : Host) : List JsValue → Except JsError String
  | [] => .ok ""
  | x :: rest =>
    match (match x with
           | .undefined => Except.ok ""
           | .null => Except.ok ""
           | y => toStringJs host y) with
    | .error e => .error e
    | .ok sx =>
      match rest with
      | [] => .ok sx
      | _ :: _ =>
        match joinJs host rest with
        | .error e => .error e
        | .ok sr => .ok (sx ++ "," ++ sr)
end

/-- The relational test `v > 0`: `undefined` and objects convert to `NaN`, `null` to `0`,
booleans to `0`/`1`; strings (and arrays, through `join`) go through `StringToNumber`. -/
def gtZero (host : Host) : JsValue → Except JsError Bool
  | .undefined => .ok false
  | .null => .ok false
  | .bool b => .ok b
  | .num n => .ok (n.sign == Sign.pos)
  | .str s => .ok (host.stringGtZero s)
  | .arr items =>
    match joinJs host items with
    | .error e => .error e
    | .ok s => .ok (host.stringGtZero s)
  | .obj props =>
    if hasOwn "toString" props then .error (host.typeError .toPrimitive) else .ok false

/-- Conversion of the value assigned to `textContent` (a nullable `DOMString`):
`undefined` and `null` become the empty string, anything else goes through `ToString`. -/
def toTextContent (host : Host) : JsValue → Except JsError String
  | .undefined => .ok ""
  | .null => .ok ""
  | v => toStringJs host v

/-! ## The outbound request and the provider's answer -/

/-- One entry of `messages`. -/
structure Message where
  role : String
  content : String
  deriving DecidableEq, Repr

/-- The object passed to `JSON.stringify`; `temperature` is kept as its literal. -/
structure RequestBody where
  model : String
  messages : List Message
  stream : Bool
  temperature : String
  deriving DecidableEq, Repr

/-- The arguments of the `fetch` call. -/
structure Request where
  url : String
  method : String
  headers : List (String × String)
  body : RequestBody
  deriving DecidableEq, Repr

/-- Outcome of `await response.json()`. -/
inductive BodyOutcome where
  | json (data : JsValue)
  | rejected (e : JsError)

/-- Outcome of `await fetch(...)`: the promise rejects (network failure) or resolves to a
response with a status and a body. -/
inductive FetchOutcome where
  | rejected (e : JsError)
  | response (status : Nat) (body : BodyOutcome)

/-- The `ok` attribute of a response: the status is in the range 200 to 299. -/
def responseOk (status : Nat) : Bool :=
  200 ≤ status && status ≤ 299

/-- The constant `API_CONFIG.base_url`. -/
def API_CONFIG_base_url : String := "https://api.deepseek.com"

/-- The constant `API_CONFIG.model`. -/
def API_CONFIG_model : String := "deepseek-chat"

/-- The table `LANGUAGE_MAP`. -/
def LANGUAGE_MAP : List (String × String) :=
  [("zh", "中文"), ("en", "英语"), ("ru", "俄语"), ("ar", "阿拉伯语"), ("fr", "法语"),
   ("es", "西班牙语"), ("pt", "葡萄牙语"), ("de", "德语"), ("ja", "日语"), ("ko", "韩语"),
   ("tr", "土耳其语"), ("it", "意大利语"), ("id", "印尼语"), ("hi", "印地语"),
   ("bn", "孟加拉语"), ("ur", "乌尔都语"), ("th", "泰语"), ("vi", "越南语"),
   ("ms", "马来语"), ("fa", "波斯语")]

/-- The table `langMap` local to `startVoiceRecognition`. -/
def langMap : List (String × String) :=
  [("zh", "zh-CN"), ("en", "en-US"), ("ru", "ru-RU"), ("ar", "ar-SA"), ("fr", "fr-FR"),
   ("es", "es-ES"), ("pt", "pt-BR"), ("de", "de-DE"), ("ja", "ja-JP"), ("ko", "ko-KR"),
   ("tr", "tr-TR"), ("it", "it-IT"), ("id", "id-ID"), ("hi", "hi-IN"), ("bn", "bn-IN"),
   ("ur", "ur-PK"), ("th", "th-TH"), ("vi", "vi-VN"), ("ms", "ms-MY"), ("fa", "fa-IR")]

/-- Read a key of a string table; `none` is `undefined`. -/
def tableGet (k : String) : List (String × String) → Option String
  | [] => none
  | (k', v) :: rest => if k' = k then some v else tableGet k rest

/-- The substitution of `LANGUAGE_MAP[code]` in a template literal: an absent key renders
as `undefined`. -/
def languageName (code : String) : String :=
  (tableGet code LANGUAGE_MAP).getD "undefined"

/-- The system instruction of the request. -/
def systemPrompt (sourceLang targetLang : String) : String :=
  "你是一个专业的翻译助手，请将" ++ languageName sourceLang ++ "翻译成" ++
    languageName targetLang ++ "，保持原意准确，语言流畅自然。不要添加任何解释或额外内容。"

/-- The arguments `translate` passes to `fetch`. -/
def buildRequest (apiKey sourceLang targetLang input : String) : Request :=
  { url := API_CONFIG_base_url ++ "/chat/completions"
    method := "POST"
    headers := [("Content-Type", "application/json"), ("Authorization", "Bearer " ++ apiKey)]
    body :=
      { model := API_CONFIG_model
        messages := [{ role := "system", content := systemPrompt sourceLang targetLang },
                     { role := "user", content := input }]
        stream := false
        temperature := "0.7" } }

/-! ## Page state -/

/-- Effects on the host, in program order. -/
inductive Event where
  | alert (msg : String)
  | prompt (msg : String)
  | consoleError (label : String) (detail : String)
  | storageSet (key : String) (value : String)
  | fetch (req : Request)
  | buttonDisabled (disabled : Bool)
  | recognitionStart
  | recognitionStop
  deriving DecidableEq, Repr

/-- Content of the translate button: set through `innerHTML` or through `textContent`. -/
inductive ButtonContent where
  | html (markup : String)
  | text (t : String)
  deriving DecidableEq, Repr

/-- The recognition object created by `initVoiceRecognition`. -/
structure Recognition where
  lang : String
  continuous : Bool
  interimResults : Bool
  maxAlternatives : Nat
  deriving DecidableEq, Repr

/-- The bindings the script reads and writes. -/
structure State where
  /-- The select `elements.sourceLang.value`. -/
  sourceLang : String
  /-- The select `elements.targetLang.value`. -/
  targetLang : String
  /-- The textarea `elements.inputText.value`. -/
  inputText : String
  /-- The element `elements.outputText.textContent`. -/
  outputText : String
  /-- The attribute `elements.translateBtn.disabled`. -/
  translateBtnDisabled : Bool
  translateBtnContent : ButtonContent
  /-- Whether `elements.voiceBtn.classList` contains `recording`. -/
  voiceBtnRecording : Bool
  /-- The text `elements.voiceBtn.textContent`. -/
  voiceBtnText : String
  /-- The module variable `recognition`; `none` is `null`. -/
  recognition : Option Recognition
  /-- The module variable `isRecording`. -/
  isRecording : Bool
  /-- The entry `localStorage.getItem('deepseekApiKey')`; `none` is `null`. -/
  apiKey : Option String
  log : List Event
  deriving DecidableEq, Repr

/-- Append one effect to the log. -/
def State.emit (s : State) (e : Event) : State :=
  { s with log := s.log ++ [e] }

/-- How a handler run ends: normally, or by an exception that leaves the handler. The state
holds the writes made before that point. -/
inductive Completion where
  | normal (s : State)
  | abrupt (s : State) (e : JsError)
  deriving DecidableEq, Repr

/-- The state a handler run leaves behind. -/
def Completion.state : Completion → State
  | .normal s => s
  | .abrupt s _ => s

/-- Whether the run ended without an exception. -/
def Completion.isNormal : Completion → Bool
  | .normal _ => true
  | .abrupt _ _ => false

/-! ## Credential storage and the swap helper -/

/-- Truthiness of a value that is `null` or a string (`!apiKey`, `if (userApiKey)`). -/
def isTruthyString : Option String → Bool
  | none => false
  | some k => k != ""

/-- The function `checkApiKey`. -/
def checkApiKey (host : Host) (s : State) : State :=
  if isTruthyString s.apiKey then s
  else
    let s1 := s.emit (.prompt "请输入您的DeepSeek API密钥：")
    match host.promptReply with
    | some userApiKey =>
      if userApiKey != "" then
        { s1.emit (.storageSet "deepseekApiKey" userApiKey) with apiKey := some userApiKey }
      else s1.emit (.alert "API密钥是必需的，请稍后再试。")
    | none => s1.emit (.alert "API密钥是必需的，请稍后再试。")

/-- The function `swapLanguages`. -/
def swapLanguages (s : State) : State :=
  let temp := s.sourceLang
  let s1 := { s with sourceLang := s.targetLang }
  let s2 := { s1 with targetLang := temp }
  if s2.outputText != "" then
    let s3 := { s2 with inputText := s2.outputText }
    { s3 with outputText := "" }
  else s2

/-! ## The translation request cycle -/

/-- The function `showLoading`. -/
def showLoading (loading : Bool) (s : State) : State :=
  if loading then
    { s.emit (.buttonDisabled true) with
      translateBtnDisabled := true
      translateBtnContent := .html "<span class=\"loading\"></span> 翻译中..." }
  else
    { s.emit (.buttonDisabled false) with
      translateBtnDisabled := false
      translateBtnContent := .text "翻译" }

/-- The guard `data.choices && data.choices.length > 0`. -/
def hasChoices (host : Host) (data : JsValue) : Except JsError Bool :=
  match getProp host data .choices with
  | .error e => .error e
  | .ok choices =>
    if truthy choices then
      match getProp host choices .length with
      | .error e => .error e
      | .ok len => gtZero host len
    else .ok false

/-- The expression `data.choices[0].message.content`. -/
def firstContent (host : Host) (data : JsValue) : Except JsError JsValue :=
  match getProp host data .choices with
  | .error e => .error e
  | .ok choices =>
    match getProp host choices .zero with
    | .error e => .error e
    | .ok first =>
      match getProp host first .message with
      | .error e => .error e
      | .ok message => getProp host message .content

/-- Lines 246 to 250 of `translate`: the text written to the output, or the value thrown. -/
def readContent (host : Host) (data : JsValue) : Except JsError String :=
  match hasChoices host data with
  | .error e => .error e
  | .ok true =>
    match firstContent host data with
    | .error e => .error e
    | .ok content => toTextContent host content
  | .ok false => .error { message := "API返回格式不正确" }

/-- The `try` block of `translate`. -/
def tryBlock (host : Host) (net : Request → FetchOutcome) (apiKey sourceLang targetLang
    input : String) (s : State) : Completion :=
  let req := buildRequest apiKey sourceLang targetLang input
  let s1 := s.emit (.fetch req)
  match net req with
  | .rejected e => .abrupt s1 e
  | .response status body =>
    if !responseOk status then
      .abrupt s1 { message := "API请求失败: " ++ toString status }
    else
      match body with
      | .rejected e => .abrupt s1 e
      | .json data =>
        match readContent host data with
        | .error e => .abrupt s1 e
        | .ok text => .normal { s1 with outputText := text }

/-- The `catch` block of `translate`. -/
def catchBlock (s : State) (error : JsError) : State :=
  (s.emit (.consoleError "翻译错误:" error.message)).emit
    (.alert ("翻译失败: " ++ error.message ++ "\n请检查API密钥是否正确，或稍后再试。"))

/-- The function `translate`, run to settlement against the network `net`. -/
def translate (host : Host) (net : Request → FetchOutcome) (s : State) : State :=
  let input := jsTrim s.inputText
  if input = "" then s.emit (.alert "请输入要翻译的文本。")
  else
    match s.apiKey with
    | none => checkApiKey host s
    | some apiKey =>
      if apiKey = "" then checkApiKey host s
      else
        let sourceLang := s.sourceLang
        let targetLang := s.targetLang
        if sourceLang = targetLang then { s with outputText := input }
        else
          let s1 := showLoading true s
          let s2 :=
            match tryBlock host net apiKey sourceLang targetLang input s1 with
            | .normal t => t
            | .abrupt t error => catchBlock t error
          showLoading false s2

/-! ## The capture controller -/

/-- The function `initVoiceRecognition`. -/
def initVoiceRecognition (host : Host) (s : State) : State :=
  if host.speechAvailable then
    let r : Recognition :=
      { lang := "", continuous := true, interimResults := true, maxAlternatives := 1 }
    { s with recognition := some r }
  else s.emit (.alert "您的浏览器不支持语音识别功能，请使用Chrome或Edge浏览器。")

/-- The handler `recognition.onresult`: `results` holds `event.results[i][0].transcript`. -/
def onresult (resultIndex : Nat) (results : List String) (s : State) : State :=
  { s with inputText := String.join (results.drop resultIndex) }

/-- The handler `recognition.onend`. -/
def onend (s : State) : State :=
  { s with isRecording := false, voiceBtnRecording := false, voiceBtnText := "🎤" }

/-- The handler `recognition.onerror`. -/
def onerror (error : String) (s : State) : State :=
  { s.emit (.consoleError "语音识别错误:" error) with
    isRecording := false, voiceBtnRecording := false, voiceBtnText := "🎤" }

/-- The expression `langMap[elements.sourceLang.value] || 'zh-CN'`. -/
def recognitionLang (sourceLang : String) : String :=
  match tableGet sourceLang langMap with
  | some tag => if tag != "" then tag else "zh-CN"
  | none => "zh-CN"

/-- The function `startVoiceRecognition`. -/
def startVoiceRecognition (host : Host) (s : State) : Completion :=
  match s.recognition with
  | none => .abrupt s (host.typeError (.writeOfNull "lang"))
  | some r =>
    let s1 := { s with recognition := some { r with lang := recognitionLang s.sourceLang } }
    let s2 := s1.emit .recognitionStart
    .normal { s2 with isRecording := true, voiceBtnRecording := true, voiceBtnText := "⏹️" }

/-- The function `stopVoiceRecognition`. -/
def stopVoiceRecognition (host : Host) (s : State) : Completion :=
  match s.recognition with
  | none => .abrupt s (host.typeError (.readOfNull "stop"))
  | some _ =>
    let s1 := s.emit .recognitionStop
    .normal { s1 with isRecording := false, voiceBtnRecording := false, voiceBtnText := "🎤" }

/-- The function `toggleVoiceRecognition`. -/
def toggleVoiceRecognition (host : Host) (s : State) : Completion :=
  let s1 := if s.recognition.isNone then initVoiceRecognition host s else s
  if s1.isRecording then stopVoiceRecognition host s1 else startVoiceRecognition host s1

/-! ## Observations on the log and sample inputs -/

/-- The requests handed to `fetch`, in order. -/
def requestsIn (log : List Event) : List Request :=
  log.filterMap fun e => match e with
    | .fetch req => some req
    | _ => none

/-- The texts shown through `alert`, in order. -/
def alertsIn (log : List Event) : List String :=
  log.filterMap fun e => match e with
    | .alert msg => some msg
    | _ => none

/-- How many times `recognition.start()` was called. -/
def startCalls (log : List Event) : Nat :=
  log.count Event.recognitionStart

/-- A host with a speech capability whose prompt is dismissed. -/
def sampleHost : Host :=
  { speechAvailable := true
    promptReply := none
    engineMessage := fun e =>
      match e with
      | .readOfUndefined key => "Cannot read properties of undefined (reading " ++ key ++ ")"
      | .readOfNull key => "Cannot read properties of null (reading " ++ key ++ ")"
      | .writeOfNull key => "Cannot set properties of null (setting " ++ key ++ ")"
      | .toPrimitive => "Cannot convert object to primitive value"
    stringGtZero := fun _ => false }

/-- The page after `init` with a stored key, a typed text and an earlier result. -/
def sampleState : State :=
  { sourceLang := "zh"
    targetLang := "ja"
    inputText := "你好"
    outputText := "old"
    translateBtnDisabled := false
    translateBtnContent := .text "翻译"
    voiceBtnRecording := false
    voiceBtnText := "🎤"
    recognition := none
    isRecording := false
    apiKey := some "sk-1"
    log := [] }

/-- A network that answers every request with the given outcome. -/
def always (o : FetchOutcome) : Request → FetchOutcome :=
  fun _ => o

/-- The request `translate` issues from a state with stored key `k`. -/
def requestOf (k : String) (s : State) : Request :=
  buildRequest k s.sourceLang s.targetLang (jsTrim s.inputText)

/-- The sample page with the same language on both sides and a padded input. -/
def paddedState : State :=
  { sampleState with targetLang := "zh", inputText := " a" }

/-- The body `{"choices":[{"message":{"content":"こんにちは"}}]}`. -/
def helloBody : JsValue :=
  .obj [("choices", .arr [.obj [("message", .obj [("content", .str "こんにちは")])]])]

/-- The body `{"choices":[{"message":{}}]}`. -/
def emptyMessageBody : JsValue :=
  .obj [("choices", .arr [.obj [("message", .obj [])]])]

/-- The sample page during a capture session started with Chinese as source, after the
user switched the source selector to English. -/
def activeState : State :=
  { sampleState with
    sourceLang := "en"
    recognition :=
      some { lang := "zh-CN", continuous := true, interimResults := true, maxAlternatives := 1 }
    isRecording := true
    voiceBtnRecording := true
    voiceBtnText := "⏹️"
    log := [.recognitionStart] }

/-! ## Swap helper -/

/-- C7: applying `swapLanguages` twice restores both language selections, and a single
swap sets the source to the old target and the target to the old source. -/
theorem swapLanguages_involutive_on_languages (s : State) :
    (swapLanguages (swapLanguages s)).sourceLang = s.sourceLang ∧
    (swapLanguages (swapLanguages s)).targetLang = s.targetLang ∧
    (swapLanguages s).sourceLang = s.targetLang ∧
    (swapLanguages s).targetLang = s.sourceLang := by
  have single : ∀ t : State, (swapLanguages t).sourceLang = t.targetLang ∧
      (swapLanguages t).targetLang = t.sourceLang := by
    intro t
    unfold swapLanguages
    by_cases h : t.outputText = "" <;> simp [h]
  refine ⟨?_, ?_, (single s).1, (single s).2⟩
  · rw [(single (swapLanguages s)).1, (single s).2]
  · rw [(single (swapLanguages s)).2, (single s).1]

/-- C8: with a non-empty output text `swapLanguages` moves it into the input and clears
the output; with an empty output text it leaves input and output as they are. -/
theorem swapLanguages_moves_output (s : State) :
    (s.outputText ≠ "" →
      (swapLanguages s).inputText = s.outputText ∧ (swapLanguages s).outputText = "") ∧
    (s.outputText = "" →
      (swapLanguages s).inputText = s.inputText ∧
      (swapLanguages s).outputText = s.outputText) := by
  constructor
  · intro h
    simp [swapLanguages, h]
  · intro h
    simp [swapLanguages, h]

/-- C8 at two pages: one holding a result, one with an empty output. -/
theorem swapLanguages_moves_output_witness :
    ((swapLanguages sampleState).inputText = "old" ∧
      (swapLanguages sampleState).outputText = "") ∧
    ((swapLanguages { sampleState with outputText := "" }).inputText = "你好" ∧
      (swapLanguages { sampleState with outputText := "" }).outputText = "") :=
  ⟨(swapLanguages_moves_output sampleState).1 (by decide),
   (swapLanguages_moves_output { sampleState with outputText := "" }).2 rfl⟩

/-! ## Translation request cycle -/

/-- With a non-empty trimmed input, a stored key and two different languages, `translate`
is `showLoading(true)`, the `try`/`catch` and `showLoading(false)`. -/
theorem translate_cycle (host : Host) (net : Request → FetchOutcome) (s : State) (k : String)
    (hin : jsTrim s.inputText ≠ "") (hkey : s.apiKey = some k) (hk : k ≠ "")
    (hdiff : s.sourceLang ≠ s.targetLang) :
    translate host net s =
      showLoading false
        (match tryBlock host net k s.sourceLang s.targetLang (jsTrim s.inputText)
            (showLoading true s) with
          | .normal t => t
          | .abrupt t error => catchBlock t error) := by
  simp [translate, hin, hkey, hk, hdiff]

/-- The `try` block on a response that is not `ok`, or on a rejected `fetch`. -/
theorem tryBlock_failure (host : Host) (net : Request → FetchOutcome) (k src tgt input : String)
    (s : State) :
    (∀ status body, net (buildRequest k src tgt input) = .response status body →
      responseOk status = false →
      tryBlock host net k src tgt input s =
        .abrupt (s.emit (.fetch (buildRequest k src tgt input)))
          { message := "API请求失败: " ++ toString status }) ∧
    (∀ e, net (buildRequest k src tgt input) = .rejected e →
      tryBlock host net k src tgt input s =
        .abrupt (s.emit (.fetch (buildRequest k src tgt input))) e) := by
  constructor
  · intro status body hnet hok
    simp [tryBlock, hnet, hok]
  · intro e hnet
    simp [tryBlock, hnet]

/-- C1 (as amended): with the same language on both sides, a non-empty trimmed input and a
stored credential, `translate` only writes the trimmed input text to the output: nothing is
logged (no request, no change of the button), and the button state is untouched. -/
theorem translate_same_language (host : Host) (net : Request → FetchOutcome) (s : State)
    (k : String) (hin : jsTrim s.inputText ≠ "") (hkey : s.apiKey = some k) (hk : k ≠ "")
    (hsame : s.sourceLang = s.targetLang) :
    translate host net s = { s with outputText := jsTrim s.inputText } ∧
    (translate host net s).outputText = jsTrim s.inputText ∧
    (translate host net s).log = s.log ∧
    (translate host net s).translateBtnDisabled = s.translateBtnDisabled ∧
    (translate host net s).translateBtnContent = s.translateBtnContent := by
  have h : translate host net s = { s with outputText := jsTrim s.inputText } := by
    simp [translate, hin, hkey, hk, hsame]
  rw [h]
  exact ⟨rfl, rfl, rfl, rfl, rfl⟩

/-- C1 (as amended) on the padded sample page. -/
theorem translate_same_language_witness :
    translate sampleHost (always (.rejected { message := "offline" })) paddedState =
      { paddedState with outputText := "a" } :=
  (translate_same_language sampleHost (always (.rejected { message := "offline" }))
    paddedState "sk-1" (by decide) rfl (by decide) rfl).1

/-- C1 as stated fails: on the padded sample page (same language, non-empty trimmed input,
stored key) the output is the trimmed text, not the input field's text. -/
theorem translate_same_language_not_verbatim :
    paddedState.sourceLang = paddedState.targetLang ∧
    jsTrim paddedState.inputText ≠ "" ∧
    paddedState.apiKey = some "sk-1" ∧
    (translate sampleHost (always (.rejected { message := "offline" })) paddedState).outputText
      ≠ paddedState.inputText := by
  decide

/-- C3: with an empty trimmed input or without a stored credential, `translate` issues no
request and leaves output, languages and the button's `disabled` state unchanged; an empty
input shows the validation message and nothing else, and a missing credential (with a
non-empty input) runs `checkApiKey`, which opens the prompt, and returns. -/
theorem translate_precondition_failure (host : Host) (net : Request → FetchOutcome) (s : State)
    (h : jsTrim s.inputText = "" ∨ isTruthyString s.apiKey = false) :
    requestsIn (translate host net s).log = requestsIn s.log ∧
    (translate host net s).outputText = s.outputText ∧
    (translate host net s).sourceLang = s.sourceLang ∧
    (translate host net s).targetLang = s.targetLang ∧
    (translate host net s).translateBtnDisabled = s.translateBtnDisabled ∧
    (jsTrim s.inputText = "" →
      translate host net s = s.emit (.alert "请输入要翻译的文本。")) ∧
    (jsTrim s.inputText ≠ "" →
      translate host net s = checkApiKey host s ∧
      ∃ rest, (translate host net s).log =
        s.log ++ Event.prompt "请输入您的DeepSeek API密钥：" :: rest) := by
  by_cases hin : jsTrim s.inputText = ""
  · have ht : translate host net s = s.emit (.alert "请输入要翻译的文本。") := by
      simp [translate, hin]
    rw [ht]
    refine ⟨?_, rfl, rfl, rfl, rfl, fun _ => rfl, fun hne => absurd hin hne⟩
    simp [requestsIn, State.emit, List.filterMap_append]
  · have hkey : isTruthyString s.apiKey = false := by
      rcases h with h | h
      · exact absurd h hin
      · exact h
    have ht : translate host net s = checkApiKey host s := by
      cases hk : s.apiKey with
      | none => simp [translate, hin, hk]
      | some k =>
        have : k = "" := by simpa [hk, isTruthyString] using hkey
        simp [translate, hin, hk, this]
    rw [ht]
    have hc : checkApiKey host s =
        (match host.promptReply with
          | some userApiKey =>
            if userApiKey != "" then
              { (s.emit (.prompt "请输入您的DeepSeek API密钥：")).emit
                  (.storageSet "deepseekApiKey" userApiKey) with apiKey := some userApiKey }
            else (s.emit (.prompt "请输入您的DeepSeek API密钥：")).emit
              (.alert "API密钥是必需的，请稍后再试。")
          | none => (s.emit (.prompt "请输入您的DeepSeek API密钥：")).emit
              (.alert "API密钥是必需的，请稍后再试。")) := by
      simp [checkApiKey, hkey]
    rw [hc]
    cases hp : host.promptReply with
    | none =>
      refine ⟨?_, rfl, rfl, rfl, rfl, fun he => absurd he hin, fun _ => ⟨rfl, ?_⟩⟩
      · simp [requestsIn, State.emit, List.filterMap_append]
      · exact ⟨[.alert "API密钥是必需的，请稍后再试。"], by simp [State.emit]⟩
    | some u =>
      by_cases hu : u = ""
      · simp only [hu]
        refine ⟨?_, rfl, rfl, rfl, rfl, fun he => absurd he hin, fun _ => ⟨trivial, ?_⟩⟩
        · simp [requestsIn, State.emit, List.filterMap_append]
        · exact ⟨[.alert "API密钥是必需的，请稍后再试。"], by simp [State.emit]⟩
      · have hb : (u != "") = true := by simpa using hu
        simp only [hb, if_true]
        refine ⟨?_, rfl, rfl, rfl, rfl, fun he => absurd he hin, fun _ => ⟨trivial, ?_⟩⟩
        · simp [requestsIn, State.emit, List.filterMap_append]
        · exact ⟨[.storageSet "deepseekApiKey" u], by simp [State.emit]⟩

/-- C3 on the sample page without a stored key: the prompt is dismissed, the alert
follows, and nothing else changes. -/
theorem translate_precondition_failure_witness :
    requestsIn (translate sampleHost (always (.rejected { message := "offline" }))
      { sampleState with apiKey := none }).log = [] ∧
    (translate sampleHost (always (.rejected { message := "offline" }))
      { sampleState with apiKey := none }).outputText = "old" :=
  ⟨(translate_precondition_failure sampleHost (always (.rejected { message := "offline" }))
      { sampleState with apiKey := none } (Or.inr rfl)).1,
   (translate_precondition_failure sampleHost (always (.rejected { message := "offline" }))
      { sampleState with apiKey := none } (Or.inr rfl)).2.1⟩

/-- The guard and the content read on a body whose `choices` is a non-empty array with a
string at `choices[0].message.content`. -/
theorem readContent_of_string (host : Host) (data first message : JsValue)
    (rest : List JsValue) (c : String)
    (hchoices : getProp host data .choices = .ok (.arr (first :: rest)))
    (hmessage : getProp host first .message = .ok message)
    (hcontent : getProp host message .content = .ok (.str c)) :
    readContent host data = .ok c := by
  have hlen : getProp host (.arr (first :: rest)) .length =
      .ok (.num (JsNumber.ofNat (first :: rest).length)) := rfl
  have hzero : getProp host (.arr (first :: rest)) .zero = .ok first := rfl
  have hguard : hasChoices host data = .ok true := by
    simp only [hasChoices, hchoices, truthy, if_true, hlen, gtZero]
    simp [JsNumber.ofNat]
  have hfirst : firstContent host data = .ok (.str c) := by
    simp only [firstContent, hchoices, hzero, hmessage, hcontent]
  simp only [readContent, hguard, hfirst, toTextContent, toStringJs]

/-- The `try` block logs the request and then either writes a text to the output or throws
without another write. -/
theorem tryBlock_cases (host : Host) (net : Request → FetchOutcome) (k src tgt input : String)
    (s : State) :
    (∃ text, tryBlock host net k src tgt input s =
      .normal { s.emit (.fetch (buildRequest k src tgt input)) with outputText := text }) ∨
    (∃ e, tryBlock host net k src tgt input s =
      .abrupt (s.emit (.fetch (buildRequest k src tgt input))) e) := by
  cases hnet : net (buildRequest k src tgt input) with
  | rejected err => exact Or.inr ⟨err, (tryBlock_failure host net k src tgt input s).2 err hnet⟩
  | response status body =>
    cases hok : responseOk status with
    | false =>
      exact Or.inr ⟨_, (tryBlock_failure host net k src tgt input s).1 status body hnet hok⟩
    | true =>
      cases body with
      | rejected err =>
        refine Or.inr ⟨err, ?_⟩
        simp [tryBlock, hnet, hok]
      | json data =>
        cases hread : readContent host data with
        | error err =>
          refine Or.inr ⟨err, ?_⟩
          simp [tryBlock, hnet, hok, hread]
        | ok text =>
          refine Or.inl ⟨text, ?_⟩
          simp [tryBlock, hnet, hok, hread]

/-- C2: for a non-empty trimmed input, different languages and a stored credential, a 2xx
response whose body has a non-empty `choices` array with the string `c` at
`choices[0].message.content` makes the output exactly `c`; the run logs the button
change, the one request and the button change back, and no `alert`. -/
theorem translate_success_renders_content (host : Host) (net : Request → FetchOutcome)
    (s : State) (k : String) (status : Nat) (data first message : JsValue)
    (rest : List JsValue) (c : String)
    (hin : jsTrim s.inputText ≠ "") (hkey : s.apiKey = some k) (hk : k ≠ "")
    (hdiff : s.sourceLang ≠ s.targetLang)
    (hnet : net (requestOf k s) = .response status (.json data))
    (hok : responseOk status = true)
    (hchoices : getProp host data .choices = .ok (.arr (first :: rest)))
    (hmessage : getProp host first .message = .ok message)
    (hcontent : getProp host message .content = .ok (.str c)) :
    (translate host net s).outputText = c ∧
    (translate host net s).log =
      s.log ++ [.buttonDisabled true, .fetch (requestOf k s), .buttonDisabled false] ∧
    alertsIn (translate host net s).log = alertsIn s.log := by
  have hread := readContent_of_string host data first message rest c hchoices hmessage hcontent
  have hnet2 : net (buildRequest k s.sourceLang s.targetLang (jsTrim s.inputText)) =
      .response status (.json data) := hnet
  have ht : translate host net s =
      showLoading false
        { (showLoading true s).emit (.fetch (requestOf k s)) with outputText := c } := by
    rw [translate_cycle host net s k hin hkey hk hdiff]
    simp [tryBlock, hnet2, hok, hread, requestOf]
  rw [ht]
  refine ⟨rfl, ?_, ?_⟩
  · simp [showLoading, State.emit]
  · simp [showLoading, State.emit, alertsIn, List.filterMap_append]

/-- C2 on the sample page with the body `{"choices":[{"message":{"content":"こんにちは"}}]}`. -/
theorem translate_success_renders_content_witness :
    (translate sampleHost (always (.response 200 (.json helloBody))) sampleState).outputText
      = "こんにちは" :=
  (translate_success_renders_content sampleHost (always (.response 200 (.json helloBody)))
    sampleState "sk-1" 200 helloBody
    (.obj [("message", .obj [("content", .str "こんにちは")])])
    (.obj [("content", .str "こんにちは")]) [] "こんにちは"
    (by decide) rfl (by decide) (by decide) rfl rfl rfl rfl rfl).1

/-- C5: for a non-empty trimmed input, different languages and a stored credential, a
response with a non-2xx status, or a rejected `fetch`, leaves the output as it was and shows
exactly one `alert`: the cause (`API请求失败: ` and the status, or the thrown error's
message) followed by the hint to check the key or retry later. -/
theorem translate_failure_notifies_once (host : Host) (net : Request → FetchOutcome)
    (s : State) (k cause : String)
    (hin : jsTrim s.inputText ≠ "") (hkey : s.apiKey = some k) (hk : k ≠ "")
    (hdiff : s.sourceLang ≠ s.targetLang)
    (hfail : (∃ status body, net (requestOf k s) = .response status body ∧
                responseOk status = false ∧ cause = "API请求失败: " ++ toString status) ∨
             (∃ e, net (requestOf k s) = .rejected e ∧ cause = e.message)) :
    (translate host net s).outputText = s.outputText ∧
    (translate host net s).log =
      s.log ++ [.buttonDisabled true, .fetch (requestOf k s),
        .consoleError "翻译错误:" cause,
        .alert ("翻译失败: " ++ cause ++ "\n请检查API密钥是否正确，或稍后再试。"),
        .buttonDisabled false] ∧
    alertsIn (translate host net s).log =
      alertsIn s.log ++ ["翻译失败: " ++ cause ++ "\n请检查API密钥是否正确，或稍后再试。"] := by
  have ht : translate host net s =
      showLoading false
        (catchBlock ((showLoading true s).emit (.fetch (requestOf k s)))
          { message := cause }) := by
    rw [translate_cycle host net s k hin hkey hk hdiff]
    have hf := tryBlock_failure host net k s.sourceLang s.targetLang (jsTrim s.inputText)
      (showLoading true s)
    rcases hfail with ⟨status, body, hnet, hok, hc⟩ | ⟨e, hnet, hc⟩
    · rw [hf.1 status body hnet hok, hc]
      rfl
    · rw [hf.2 e hnet, hc]
      rfl
  rw [ht]
  refine ⟨rfl, ?_, ?_⟩
  · simp [showLoading, catchBlock, State.emit]
  · simp [showLoading, catchBlock, State.emit, alertsIn, List.filterMap_append]

/-- C5 on the sample page with a 401 response. -/
theorem translate_failure_notifies_once_witness :
    (translate sampleHost (always (.response 401 (.json (.obj [])))) sampleState).outputText
      = "old" ∧
    alertsIn (translate sampleHost (always (.response 401 (.json (.obj [])))) sampleState).log
      = ["翻译失败: API请求失败: 401\n请检查API密钥是否正确，或稍后再试。"] :=
  have h := translate_failure_notifies_once sampleHost
    (always (.response 401 (.json (.obj [])))) sampleState "sk-1" "API请求失败: 401"
    (by decide) rfl (by decide) (by decide)
    (Or.inl ⟨401, .json (.obj []), rfl, rfl, by decide⟩)
  ⟨h.1, h.2.2⟩

/-- C6: for a non-empty trimmed input, different languages and a stored credential, and
whatever the network answers, one `translate` run disables the button, issues one request,
logs at most console lines and alerts afterwards, and enables the button again as its last
step; the button ends enabled with its idle label. -/
theorem translate_one_request_then_reenabled (host : Host) (net : Request → FetchOutcome)
    (s : State) (k : String)
    (hin : jsTrim s.inputText ≠ "") (hkey : s.apiKey = some k) (hk : k ≠ "")
    (hdiff : s.sourceLang ≠ s.targetLang) :
    (∃ mid : List Event,
      (translate host net s).log =
        s.log ++ [.buttonDisabled true, .fetch (requestOf k s)] ++ mid ++
          [.buttonDisabled false] ∧
      ∀ e ∈ mid, (∃ label detail, e = .consoleError label detail) ∨ ∃ msg, e = .alert msg) ∧
    requestsIn (translate host net s).log = requestsIn s.log ++ [requestOf k s] ∧
    (translate host net s).translateBtnDisabled = false ∧
    (translate host net s).translateBtnContent = .text "翻译" := by
  have key : ∃ t : State,
      (match tryBlock host net k s.sourceLang s.targetLang (jsTrim s.inputText)
          (showLoading true s) with
        | .normal t => t
        | .abrupt t error => catchBlock t error) = t ∧
      ∃ mid : List Event,
        t.log = s.log ++ [.buttonDisabled true, .fetch (requestOf k s)] ++ mid ∧
        ∀ e ∈ mid, (∃ label detail, e = .consoleError label detail) ∨ ∃ msg, e = .alert msg := by
    refine ⟨_, rfl, ?_⟩
    rcases tryBlock_cases host net k s.sourceLang s.targetLang (jsTrim s.inputText)
      (showLoading true s) with ⟨text, h⟩ | ⟨err, h⟩
    · rw [h]
      exact ⟨[], by simp [showLoading, State.emit, requestOf], by simp⟩
    · rw [h]
      refine ⟨[.consoleError "翻译错误:" err.message,
        .alert ("翻译失败: " ++ err.message ++ "\n请检查API密钥是否正确，或稍后再试。")], ?_, ?_⟩
      · simp [showLoading, catchBlock, State.emit, requestOf]
      · intro e he
        simp only [List.mem_cons, List.mem_singleton, List.not_mem_nil, or_false] at he
        rcases he with he | he
        · exact Or.inl ⟨_, _, he⟩
        · exact Or.inr ⟨_, he⟩
  obtain ⟨t, ht, mid, hlog, hmid⟩ := key
  have htr : translate host net s = showLoading false t := by
    rw [translate_cycle host net s k hin hkey hk hdiff, ht]
  rw [htr]
  refine ⟨⟨mid, ?_, hmid⟩, ?_, rfl, rfl⟩
  · simp [showLoading, State.emit, hlog]
  · have hnone : requestsIn mid = [] := by
      unfold requestsIn
      rw [List.filterMap_eq_nil_iff]
      intro e he
      rcases hmid e he with ⟨l, d, rfl⟩ | ⟨m, rfl⟩ <;> rfl
    have : (showLoading false t).log = t.log ++ [.buttonDisabled false] := by
      simp [showLoading, State.emit]
    rw [this, hlog]
    unfold requestsIn at hnone ⊢
    simp [List.filterMap_append, hnone]

/-- C6 on the sample page with a network that rejects the call. -/
theorem translate_one_request_then_reenabled_witness :
    requestsIn (translate sampleHost (always (.rejected { message := "Failed to fetch" }))
      sampleState).log = [requestOf "sk-1" sampleState] ∧
    (translate sampleHost (always (.rejected { message := "Failed to fetch" }))
      sampleState).translateBtnDisabled = false :=
  have h := translate_one_request_then_reenabled sampleHost
    (always (.rejected { message := "Failed to fetch" })) sampleState "sk-1"
    (by decide) rfl (by decide) (by decide)
  ⟨h.2.1, h.2.2.1⟩

/-- The part of the payload check the script performs: when `choices` is absent, falsy or
an empty array, the run shows the format error and leaves the output as it was. -/
theorem translate_no_choices_format_error (host : Host) (net : Request → FetchOutcome)
    (s : State) (k : String) (status : Nat) (data choices : JsValue)
    (hin : jsTrim s.inputText ≠ "") (hkey : s.apiKey = some k) (hk : k ≠ "")
    (hdiff : s.sourceLang ≠ s.targetLang)
    (hnet : net (requestOf k s) = .response status (.json data))
    (hok : responseOk status = true)
    (hchoices : getProp host data .choices = .ok choices)
    (hnone : truthy choices = false ∨ choices = .arr []) :
    (translate host net s).outputText = s.outputText ∧
    alertsIn (translate host net s).log =
      alertsIn s.log ++ ["翻译失败: API返回格式不正确\n请检查API密钥是否正确，或稍后再试。"] := by
  have hguard : hasChoices host data = .ok false := by
    rcases hnone with h | h
    · simp only [hasChoices, hchoices, h]
      rfl
    · subst h
      simp only [hasChoices, hchoices, truthy, if_true]
      rfl
  have hread : readContent host data = .error { message := "API返回格式不正确" } := by
    simp only [readContent, hguard]
  have hnet2 : net (buildRequest k s.sourceLang s.targetLang (jsTrim s.inputText)) =
      .response status (.json data) := hnet
  have ht : translate host net s =
      showLoading false
        (catchBlock ((showLoading true s).emit (.fetch (requestOf k s)))
          { message := "API返回格式不正确" }) := by
    rw [translate_cycle host net s k hin hkey hk hdiff]
    simp [tryBlock, hnet2, hok, hread, requestOf]
  rw [ht]
  refine ⟨rfl, ?_⟩
  simp [showLoading, catchBlock, State.emit, alertsIn, List.filterMap_append]

/-- On the body `{"choices":[{}]}` the error shown is the engine's `TypeError` for the read
of `content` on `undefined`, not the format error; the output is as it was. -/
theorem translate_missing_message_reports_engine_error (host : Host) (s : State) (k : String)
    (hin : jsTrim s.inputText ≠ "") (hkey : s.apiKey = some k) (hk : k ≠ "")
    (hdiff : s.sourceLang ≠ s.targetLang) :
    (translate host (always (.response 200 (.json (.obj [("choices", .arr [.obj []])])))) s
      ).outputText = s.outputText ∧
    alertsIn (translate host
        (always (.response 200 (.json (.obj [("choices", .arr [.obj []])])))) s).log =
      alertsIn s.log ++ ["翻译失败: " ++ host.engineMessage (.readOfUndefined "content") ++
        "\n请检查API密钥是否正确，或稍后再试。"] := by
  have hread : readContent host (.obj [("choices", .arr [.obj []])]) =
      .error (host.typeError (.readOfUndefined "content")) := by
    simp [readContent, hasChoices, firstContent, getProp, lookupProp, Key.name, truthy, gtZero,
      JsNumber.ofNat]
  have ht : translate host
      (always (.response 200 (.json (.obj [("choices", .arr [.obj []])])))) s =
      showLoading false
        (catchBlock ((showLoading true s).emit (.fetch (requestOf k s)))
          (host.typeError (.readOfUndefined "content"))) := by
    rw [translate_cycle host _ s k hin hkey hk hdiff]
    simp [tryBlock, always, responseOk, hread, requestOf]
  rw [ht]
  refine ⟨rfl, ?_⟩
  simp [showLoading, catchBlock, State.emit, alertsIn, List.filterMap_append, Host.typeError]

/-- C4 fails on the code: on the sample page (earlier output `old`), a 200 response with
the body `{"choices":[{"message":{}}]}` passes the guard, `undefined` is assigned to
`textContent`, the output becomes empty and no `alert` is shown. -/
theorem translate_missing_content_clears_output :
    sampleState.outputText = "old" ∧
    (translate sampleHost (always (.response 200 (.json emptyMessageBody)))
      sampleState).outputText = "" ∧
    alertsIn (translate sampleHost (always (.response 200 (.json emptyMessageBody)))
      sampleState).log = [] := by
  decide

/-! ## Capture controller -/

/-- C9 as stated fails: during an active session a direct `startVoiceRecognition` calls
`recognition.start()` once more and rewrites `recognition.lang`. -/
theorem startVoiceRecognition_active_calls_start :
    activeState.isRecording = true ∧
    startCalls (startVoiceRecognition sampleHost activeState).state.log =
      startCalls activeState.log + 1 ∧
    (startVoiceRecognition sampleHost activeState).state.recognition ≠
      activeState.recognition := by
  decide

/-- C9 (as amended): during an active session (`isRecording` true, recognition object `r`)
the guard is in `toggleVoiceRecognition`: it runs `stopVoiceRecognition` and adds no
`recognition.start()` call. `startVoiceRecognition` itself is unguarded: it sets
`recognition.lang` from the source language, calls `recognition.start()` once more, and
keeps `isRecording` and the button in the recording state. -/
theorem toggle_guards_start_when_active (host : Host) (s : State) (r : Recognition)
    (hactive : s.isRecording = true) (hr : s.recognition = some r) :
    toggleVoiceRecognition host s = stopVoiceRecognition host s ∧
    startCalls (toggleVoiceRecognition host s).state.log = startCalls s.log ∧
    (startVoiceRecognition host s).state.log = s.log ++ [.recognitionStart] ∧
    startCalls (startVoiceRecognition host s).state.log = startCalls s.log + 1 ∧
    (startVoiceRecognition host s).state.recognition =
      some { r with lang := recognitionLang s.sourceLang } ∧
    (startVoiceRecognition host s).state.isRecording = true ∧
    (startVoiceRecognition host s).state.voiceBtnRecording = true ∧
    (startVoiceRecognition host s).state.voiceBtnText = "⏹️" := by
  have htoggle : toggleVoiceRecognition host s = stopVoiceRecognition host s := by
    simp [toggleVoiceRecognition, hr, hactive]
  have hstop : (stopVoiceRecognition host s).state.log = s.log ++ [.recognitionStop] := by
    simp [stopVoiceRecognition, hr, State.emit, Completion.state]
  have hstart : startVoiceRecognition host s =
      .normal { s with
        recognition := some { r with lang := recognitionLang s.sourceLang }
        log := s.log ++ [.recognitionStart]
        isRecording := true
        voiceBtnRecording := true
        voiceBtnText := "⏹️" } := by
    simp [startVoiceRecognition, hr, State.emit]
  refine ⟨htoggle, ?_, ?_, ?_, ?_, ?_, ?_, ?_⟩
  · rw [htoggle, hstop]
    simp [startCalls]
  · rw [hstart]; rfl
  · rw [hstart]
    simp [startCalls, Completion.state]
  · rw [hstart]; rfl
  · rw [hstart]; rfl
  · rw [hstart]; rfl
  · rw [hstart]; rfl

/-- C9 (as amended) on the sample page during a session. -/
theorem toggle_guards_start_when_active_witness :
    startCalls (toggleVoiceRecognition sampleHost activeState).state.log = 1 ∧
    (startVoiceRecognition sampleHost activeState).state.log =
      [.recognitionStart, .recognitionStart] :=
  have h := toggle_guards_start_when_active sampleHost activeState
    { lang := "zh-CN", continuous := true, interimResults := true, maxAlternatives := 1 }
    rfl rfl
  ⟨h.2.1, h.2.2.1⟩

/-- C10: from an idle page (`isRecording` false) on a host with a speech capability, the
first `toggleVoiceRecognition` starts a session (one `recognition.start()` call,
`isRecording` true, recording affordance) and the second stops it (one
`recognition.stop()` call, `isRecording` false, idle affordance). -/
theorem toggle_twice_returns_to_idle (host : Host) (s : State)
    (havail : host.speechAvailable = true) (hidle : s.isRecording = false) :
    (toggleVoiceRecognition host s).isNormal = true ∧
    (toggleVoiceRecognition host s).state.isRecording = true ∧
    (toggleVoiceRecognition host s).state.voiceBtnRecording = true ∧
    (toggleVoiceRecognition host s).state.voiceBtnText = "⏹️" ∧
    (toggleVoiceRecognition host (toggleVoiceRecognition host s).state).isNormal = true ∧
    (toggleVoiceRecognition host (toggleVoiceRecognition host s).state).state.isRecording
      = false ∧
    (toggleVoiceRecognition host (toggleVoiceRecognition host s).state).state.voiceBtnRecording
      = false ∧
    (toggleVoiceRecognition host (toggleVoiceRecognition host s).state).state.voiceBtnText
      = "🎤" ∧
    (toggleVoiceRecognition host (toggleVoiceRecognition host s).state).state.log =
      s.log ++ [.recognitionStart, .recognitionStop] := by
  have hfirst : ∃ r : Recognition, toggleVoiceRecognition host s =
      .normal { s with
        recognition := some r
        log := s.log ++ [.recognitionStart]
        isRecording := true
        voiceBtnRecording := true
        voiceBtnText := "⏹️" } := by
    cases hrec : s.recognition with
    | none =>
      refine ⟨{ lang := recognitionLang s.sourceLang, continuous := true,
                interimResults := true, maxAlternatives := 1 }, ?_⟩
      simp [toggleVoiceRecognition, initVoiceRecognition, startVoiceRecognition, hrec, havail,
        hidle, State.emit]
    | some r =>
      refine ⟨{ r with lang := recognitionLang s.sourceLang }, ?_⟩
      simp [toggleVoiceRecognition, startVoiceRecognition, hrec, hidle, State.emit]
  obtain ⟨r, h1⟩ := hfirst
  rw [h1]
  simp [toggleVoiceRecognition, stopVoiceRecognition, Completion.state, Completion.isNormal,
    State.emit]

/-- C10 on the sample page, where `recognition` is still `null`. -/
theorem toggle_twice_returns_to_idle_witness :
    (toggleVoiceRecognition sampleHost
      (toggleVoiceRecognition sampleHost sampleState).state).state.isRecording = false ∧
    (toggleVoiceRecognition sampleHost
      (toggleVoiceRecognition sampleHost sampleState).state).state.log =
      [.recognitionStart, .recognitionStop] :=
  have h := toggle_twice_returns_to_idle sampleHost sampleState rfl rfl
  ⟨h.2.2.2.2.2.1, h.2.2.2.2.2.2.2.2⟩

end Sensen
